import Mathlib

/-!
Verification development for the `ocl` OpenCL abstraction layer.

Shallow embedding of the three source files:
  * `src/types/structs.rs`   — `MappedMem`, `ContextProperties`
  * `src/standard/program.rs` — `BuildOpt`, `ProgramBuilder`, `Program`
  * `src/raw/enums.rs`        — raw enums (not needed by the claims)

External collaborators (file system, native OpenCL entry points, device
resolution) are modelled as explicit environment records of result-valued
functions; Rust panics (`assert!` / `panic!`) are modelled by a distinct
`fatal` outcome, and Rust `Result` by `Except String`.
-/

namespace Ocl

/-- Outcome of a Rust computation that can panic (`assert!`/`panic!`):
either a normal value or a fatal abort carrying the panic message. -/
inductive RustOutcome (α : Type) where
  | ok (a : α)
  | fatal (msg : String)
  deriving Repr, DecidableEq

/-- `CString::new` from the Rust standard library: fails when the byte
string contains an interior NUL byte, otherwise returns the string (a
NUL byte occurs in the UTF-8 bytes exactly when the character U+0000
occurs in the character data). -/
def cstring_new (s : String) : Except String String :=
  if s.data.contains (Char.ofNat 0) then .error "NulError" else .ok s

/-- Predicate: the string contains no NUL byte, so `cstring_new` succeeds. -/
def NulFree (s : String) : Prop := s.data.contains (Char.ofNat 0) = false

instance (s : String) : Decidable (NulFree s) := by
  unfold NulFree; infer_instance

/-! ## MappedMem (`src/types/structs.rs`, lines 22–202)

`MappedMem<T>` owns a raw host pointer (address modelled as `Nat`), an
element count, a buffer handle, a queue handle, an optional unmap event,
and two flags.  The element type `T` plays no role in the lifecycle
claims, so memory contents are supplied externally to `deref` as a map
from addresses to values. -/

/-- Embedding of `struct MappedMem<T>` (fields only; handles as ids). -/
structure MappedMem where
  ptr : Nat
  len : Nat
  buffer : Nat
  queue : Nat
  unmap_event : Option Nat
  callback_is_set : Bool
  is_unmapped : Bool
  deriving Repr, DecidableEq

/-- Environment of native calls reachable from `MappedMem` methods.
`feature_event_callbacks` embeds the `future_event_callbacks` cfg flag. -/
structure UnmapEnv where
  /-- `enqueue_unmap_mem_object(queue, buffer, ..)`: outcome per queue/buffer. -/
  enqueue_unmap_mem_object : Nat → Nat → Except String Unit
  /-- `Event::null().validate()`: the validated event id, or an error. -/
  validate : Except String Nat
  /-- `retain_event(event)`. -/
  retain_event : Nat → Except String Unit
  /-- `event.set_callback(..)` used by `register_event_trigger`. -/
  set_callback : Nat → Except String Unit
  /-- build-time cfg `feature = "future_event_callbacks"`. -/
  feature_event_callbacks : Bool

/-- Panic message of the `assert!` in `Deref`/`DerefMut` for `MappedMem`
(structs.rs:175–176, 183–184); the Rust literal spans two source lines. -/
def derefFatalMsg : String :=
  "Mapped memory inaccessible. Check with '::is_accessable'
            before attempting to access."

/-- Panic message of the `assert!` in the non-feature `Drop`
(structs.rs:199–200); the Rust `\`-continuation swallows the line break. -/
def dropFatalMsg : String :=
  "ocl_core::MappedMem: '::drop' called while still mapped. Call '::unmap' before allowing this 'MappedMem' to fall out of scope."

/-- `MappedMem::new` (structs.rs:68–82): asserts the pointer is non-null,
then constructs the region with `callback_is_set = false` and
`is_unmapped = false`. -/
def MappedMem.new (ptr len : Nat) (unmap_event : Option Nat) (buffer queue : Nat) :
    RustOutcome MappedMem :=
  if ptr = 0 then .fatal "MappedMem::new: Null pointer passed."
  else .ok { ptr := ptr, len := len, buffer := buffer, queue := queue,
             unmap_event := unmap_event, callback_is_set := false,
             is_unmapped := false }

/-- `mapped_mem_set_unmapped` (structs.rs:40–42). -/
def mapped_mem_set_unmapped (mm : MappedMem) : MappedMem :=
  { mm with is_unmapped := true }

/-- `MappedMem::register_event_trigger` (structs.rs:135–155): if no
callback is registered yet, set one via the native call and record the
fact; otherwise error. Returns (result, updated region). -/
def MappedMem.register_event_trigger (env : UnmapEnv) (mm : MappedMem) (event : Nat) :
    Except String Unit × MappedMem :=
  if !mm.callback_is_set then
    match env.set_callback event with
    | .error e => (.error e, mm)
    | .ok _ => (.ok (), { mm with callback_is_set := true })
  else
    (.error "Callback already set.", mm)

/-- `MappedMem::unmap` (structs.rs:88–133).  Arguments: optional queue
override and whether an `enew_opt` out-event slot was supplied (the wait
list does not influence the modelled state).  Returns the Rust result,
the updated region, and whether the native unmap enqueue was invoked. -/
def MappedMem.unmap (env : UnmapEnv) (mm : MappedMem) (queue : Option Nat)
    (enew_present : Bool) : Except String Unit × MappedMem × Bool :=
  if !mm.is_unmapped then
    let new_event_wanted := mm.unmap_event.isSome || enew_present
    match env.enqueue_unmap_mem_object (queue.getD mm.queue) mm.buffer with
    | .error e => (.error e, mm, true)
    | .ok _ =>
      let mm1 := { mm with is_unmapped := true }
      if new_event_wanted then
        match env.validate with
        | .error e => (.error e, mm1, true)
        | .ok new_event =>
          match (if enew_present then env.retain_event new_event else .ok ()) with
          | .error e => (.error e, mm1, true)
          | .ok _ =>
            if env.feature_event_callbacks then
              match MappedMem.register_event_trigger env mm1 new_event with
              | (.error e, mm2) => (.error e, mm2, true)
              | (.ok _, mm2) => (.ok (), mm2, true)
            else
              (.ok (), mm1, true)
      else
        (.ok (), mm1, true)
  else
    (.error "ocl_core::MappedMem::unmap: Already unmapped.", mm, false)

/-- `Deref for MappedMem` (structs.rs:171–179): asserts the region is
still mapped, then returns the slice view over `[ptr, ptr+len)`; `mem`
supplies the host memory contents. -/
def MappedMem.deref (mem : Nat → Int) (mm : MappedMem) : RustOutcome (List Int) :=
  if mm.is_unmapped then
    .fatal derefFatalMsg
  else
    .ok ((List.range mm.len).map (fun i => mem (mm.ptr + i)))

/-- `DerefMut for MappedMem` (structs.rs:181–187): same precondition and
view as `deref`, but handing out a mutable slice. -/
def MappedMem.deref_mut (mem : Nat → Int) (mm : MappedMem) : RustOutcome (List Int) :=
  if mm.is_unmapped then
    .fatal derefFatalMsg
  else
    .ok ((List.range mm.len).map (fun i => mem (mm.ptr + i)))

/-- `Drop for MappedMem` (structs.rs:189–202).  With the
`future_event_callbacks` feature: if still mapped, perform a best-effort
unmap (`.ok()` discards the result).  Without the feature: assert the
region is already unmapped.  Returns the final region state. -/
def MappedMem.drop (env : UnmapEnv) (mm : MappedMem) : RustOutcome MappedMem :=
  if env.feature_event_callbacks then
    if !mm.is_unmapped then
      .ok (MappedMem.unmap env mm none false).2.1
    else
      .ok mm
  else
    if mm.is_unmapped then .ok mm
    else .fatal dropFatalMsg

/-! ## BuildOpt / ProgramBuilder (`src/standard/program.rs`)

File paths are modelled as `String`; `DeviceSpecifier` and `Device` are
external collaborator types, modelled as opaque ids (`Nat`), with
`DeviceSpecifier::to_device_list` and the native
`core::create_build_program` entry point supplied by an environment. -/

/-- Embedding of `enum BuildOpt` (program.rs:28–35). -/
inductive BuildOpt where
  | CmplrDefine (ident val : String)
  | CmplrInclDir (path : String)
  | CmplrOther (s : String)
  | IncludeDefine (ident val : String)
  | IncludeCore (text : String)
  | IncludeRawEof (text : String)
  deriving Repr, DecidableEq

/-- `BuildOpt::cmplr_def` (program.rs:39–44); the `i32` value is rendered
with `to_string`, modelled on `Int` via `toString`. -/
def BuildOpt.cmplr_def (ident : String) (val : Int) : BuildOpt :=
  .CmplrDefine ident (toString val)

/-- `BuildOpt::cmplr_opt` (program.rs:47–49). -/
def BuildOpt.cmplr_opt (opt : String) : BuildOpt := .CmplrOther opt

/-- `BuildOpt::include_def` (program.rs:52–57). -/
def BuildOpt.include_def (ident val : String) : BuildOpt := .IncludeDefine ident val

/-- Embedding of `struct ProgramBuilder` (program.rs:63–71).
`src_file_names` exists in the struct but `get_src_strings` iterates only
`src_files`; a `DeviceSpecifier` is an opaque id. -/
structure ProgramBuilder where
  options : List BuildOpt
  src_file_names : List String
  src_files : List String
  device_spec : Option Nat
  deriving Repr, DecidableEq

/-- `ProgramBuilder::new` (program.rs:75–85). -/
def ProgramBuilder.new : ProgramBuilder :=
  { options := [], src_file_names := [], src_files := [], device_spec := none }

/-- `ProgramBuilder::cmplr_def` (program.rs:130–133). -/
def ProgramBuilder.cmplr_def (b : ProgramBuilder) (name : String) (val : Int) :
    ProgramBuilder :=
  { b with options := b.options ++ [BuildOpt.cmplr_def name val] }

/-- `ProgramBuilder::cmplr_opt` (program.rs:137–140). -/
def ProgramBuilder.cmplr_opt (b : ProgramBuilder) (co : String) : ProgramBuilder :=
  { b with options := b.options ++ [BuildOpt.cmplr_opt co] }

/-- `ProgramBuilder::bo` (program.rs:143–146). -/
def ProgramBuilder.bo (b : ProgramBuilder) (o : BuildOpt) : ProgramBuilder :=
  { b with options := b.options ++ [o] }

/-- `ProgramBuilder::src_file` (program.rs:155–158). -/
def ProgramBuilder.src_file (b : ProgramBuilder) (file_path : String) : ProgramBuilder :=
  { b with src_files := b.src_files ++ [file_path] }

/-- `ProgramBuilder::src` (program.rs:161–165). -/
def ProgramBuilder.src (b : ProgramBuilder) (s : String) : ProgramBuilder :=
  { b with options := b.options ++ [BuildOpt.IncludeRawEof s] }

/-- `ProgramBuilder::devices` (program.rs:200–206): `assert!`s that no
device specifier is present yet, then stores the new one.  The Rust
function returns `ProgramBuilder` by value with no error channel, so the
duplicate-specifier case is a panic, not a result value. -/
def ProgramBuilder.devices (b : ProgramBuilder) (device_spec : Nat) :
    RustOutcome ProgramBuilder :=
  if b.device_spec.isNone then
    .ok { b with device_spec := some device_spec }
  else
    .fatal "ocl::ProgramBuilder::devices(): Devices already specified"

/-- Loop body of `get_kernel_includes` (program.rs:251–262): renders each
`IncludeDefine` as `#define IDENT  VAL\n` and each `IncludeCore`
verbatim, through `CString::new`, skipping all other variants. -/
def kernelIncludesLoop : List BuildOpt → Except String (List String)
  | [] => .ok []
  | o :: rest =>
    match o with
    | .IncludeDefine ident val =>
      match cstring_new ("#define " ++ ident ++ "  " ++ val ++ "\n") with
      | .error e => .error e
      | .ok s =>
        match kernelIncludesLoop rest with
        | .error e => .error e
        | .ok others => .ok (s :: others)
    | .IncludeCore text =>
      match cstring_new text with
      | .error e => .error e
      | .ok s =>
        match kernelIncludesLoop rest with
        | .error e => .error e
        | .ok others => .ok (s :: others)
    | _ => kernelIncludesLoop rest

/-- `ProgramBuilder::get_kernel_includes` (program.rs:247–265): a leading
`"\n"` separator followed by the rendered source-category directives. -/
def ProgramBuilder.get_kernel_includes (b : ProgramBuilder) :
    Except String (List String) :=
  match cstring_new "\n" with
  | .error e => .error e
  | .ok sep =>
    match kernelIncludesLoop b.options with
    | .error e => .error e
    | .ok rest => .ok (sep :: rest)

/-- Loop body of `get_kernel_includes_eof` (program.rs:273–280): keeps
only `IncludeRawEof` texts, through `CString::new`. -/
def kernelIncludesEofLoop : List BuildOpt → Except String (List String)
  | [] => .ok []
  | o :: rest =>
    match o with
    | .IncludeRawEof text =>
      match cstring_new text with
      | .error e => .error e
      | .ok s =>
        match kernelIncludesEofLoop rest with
        | .error e => .error e
        | .ok others => .ok (s :: others)
    | _ => kernelIncludesEofLoop rest

/-- `ProgramBuilder::get_kernel_includes_eof` (program.rs:269–283). -/
def ProgramBuilder.get_kernel_includes_eof (b : ProgramBuilder) :
    Except String (List String) :=
  match cstring_new "\n" with
  | .error e => .error e
  | .ok sep =>
    match kernelIncludesEofLoop b.options with
    | .error e => .error e
    | .ok rest => .ok (sep :: rest)

/-- Loop body of `get_compiler_options` (program.rs:292–308): collects
`-D{ident}={val}` for `CmplrDefine`, `-I{path}` for `CmplrInclDir`, the
raw text for `CmplrOther`, skipping all other variants. -/
def cmplrOptsLoop : List BuildOpt → List String
  | [] => []
  | o :: rest =>
    match o with
    | .CmplrDefine ident val => ("-D" ++ ident ++ "=" ++ val) :: cmplrOptsLoop rest
    | .CmplrInclDir path => ("-I" ++ path) :: cmplrOptsLoop rest
    | .CmplrOther s => s :: cmplrOptsLoop rest
    | _ => cmplrOptsLoop rest

/-- `ProgramBuilder::get_compiler_options` (program.rs:287–311): a leading
blank token, then the collected flags, joined by single spaces and passed
through `CString::new`. -/
def ProgramBuilder.get_compiler_options (b : ProgramBuilder) : Except String String :=
  cstring_new (String.intercalate " " (" " :: cmplrOptsLoop b.options))

/-- The file system as seen by `get_src_strings`: `File::open` +
`read_to_end` collapsed into one result-valued read per path. -/
structure FileEnv where
  readFile : String → Except String String

/-- File loop of `get_src_strings` (program.rs:327–339), over the
already-reversed path list with an explicit history: paths already in
the history are skipped; otherwise the path is recorded, the file read,
and the contents pushed through `CString::new`.  Returns the Rust result
together with the list of paths actually read from disk (reads performed
before an error are still recorded). -/
def srcFilesLoop (env : FileEnv) : List String → List String →
    Except String (List String) × List String
  | [], _ => (.ok [], [])
  | p :: rest, hist =>
    if hist.contains p then
      srcFilesLoop env rest hist
    else
      match env.readFile p with
      | .error e => (.error e, [p])
      | .ok content =>
        match cstring_new content with
        | .error e => (.error e, [p])
        | .ok s =>
          match srcFilesLoop env rest (p :: hist) with
          | (.error e, reads) => (.error e, p :: reads)
          | (.ok others, reads) => (.ok (s :: others), p :: reads)

/-- `ProgramBuilder::get_src_strings` (program.rs:319–344): kernel
includes, then the deduplicated reversed source files, then the EOF
includes. -/
def ProgramBuilder.get_src_strings (env : FileEnv) (b : ProgramBuilder) :
    Except String (List String) :=
  match b.get_kernel_includes with
  | .error e => .error e
  | .ok incs =>
    match srcFilesLoop env b.src_files.reverse [] with
    | (.error e, _) => .error e
    | (.ok fileStrs, _) =>
      match b.get_kernel_includes_eof with
      | .error e => .error e
      | .ok eofs => .ok (incs ++ fileStrs ++ eofs)

/-- The paths `get_src_strings` reads from disk, in reading order. -/
def ProgramBuilder.src_reads (env : FileEnv) (b : ProgramBuilder) : List String :=
  (srcFilesLoop env b.src_files.reverse []).2

/-- Embedding of `struct Program` (program.rs:360–363): the native
program handle together with the device list it was built for. -/
structure Program where
  obj_core : Nat
  devices : List Nat
  deriving Repr, DecidableEq

/-- Environment for `ProgramBuilder::build`: device resolution
(`DeviceSpecifier::to_device_list`), the file system, and the native
`core::create_build_program` entry point. -/
structure BuildEnv where
  to_device_list : Nat → Except String (List Nat)
  files : FileEnv
  create_build_program : List String → String → List Nat → Except String Nat

/-- Effects observed during `ProgramBuilder::build`: which source files
were read from disk and whether the native build entry point ran. -/
structure BuildEffects where
  filesRead : List String
  nativeCalled : Bool
  deriving Repr, DecidableEq

/-- `ProgramBuilder::build` (program.rs:107–126): resolve the device
specifier (`None` resolves to the empty list), fail with "No devices
found." on an empty device list, otherwise assemble sources and compiler
options and delegate to the native create-and-build call. -/
def ProgramBuilder.build (env : BuildEnv) (b : ProgramBuilder) :
    Except String Program × BuildEffects :=
  let device_list : Except String (List Nat) :=
    match b.device_spec with
    | some ds => env.to_device_list ds
    | none => .ok []
  match device_list with
  | .error e => (.error e, { filesRead := [], nativeCalled := false })
  | .ok devs =>
    if devs.length = 0 then
      (.error "ocl::ProgramBuilder::build: No devices found.",
       { filesRead := [], nativeCalled := false })
    else
      match b.get_src_strings env.files with
      | .error e => (.error e, { filesRead := b.src_reads env.files, nativeCalled := false })
      | .ok srcs =>
        match b.get_compiler_options with
        | .error e => (.error e, { filesRead := b.src_reads env.files, nativeCalled := false })
        | .ok opts =>
          match env.create_build_program srcs opts devs with
          | .error e => (.error e, { filesRead := b.src_reads env.files, nativeCalled := true })
          | .ok h =>
            (.ok { obj_core := h, devices := devs },
             { filesRead := b.src_reads env.files, nativeCalled := true })

/-! ## ContextProperties (`src/types/structs.rs`, lines 334–518)

The key enum `ContextProperty` is imported from outside the three source
files; its variants and raw discriminants follow the Khronos
`cl_context_properties` constants the surrounding comment block cites
(CL_CONTEXT_PLATFORM = 0x1084, CL_CONTEXT_INTEROP_USER_SYNC = 0x1085,
CL_GL_CONTEXT_KHR = 0x2008, CL_CGL_SHAREGROUP_KHR = 0x200C, …).  The
backing store is a `HashMap`; it is modelled as an association list with
replace-on-insert, with iteration in list order (the HashMap iteration
order is unspecified, and every claim below is order-insensitive).
Pointer-valued payloads (`PlatformId::as_ptr`, `*mut c_void`) are
modelled as `Int` words. -/

/-- The property-kind keys used by `ContextProperties` (external enum
`ContextProperty`, restricted to the variants this file stores). -/
inductive ContextProperty where
  | Platform
  | InteropUserSync
  | GlContextKhr
  | CglSharegroupKhr
  deriving Repr, DecidableEq

/-- Raw discriminant of a `ContextProperty` key (`key.clone() as isize`),
per the Khronos constants. -/
def ContextProperty.toRaw : ContextProperty → Int
  | .Platform => 0x1084
  | .InteropUserSync => 0x1085
  | .GlContextKhr => 0x2008
  | .CglSharegroupKhr => 0x200C

/-- `Debug`-style name of a key, as interpolated into panic messages. -/
def ContextProperty.debugStr : ContextProperty → String
  | .Platform => "Platform"
  | .InteropUserSync => "InteropUserSync"
  | .GlContextKhr => "GlContextKhr"
  | .CglSharegroupKhr => "CglSharegroupKhr"

/-- Embedding of `enum ContextPropertyValue` (structs.rs:335–352);
handle/pointer payloads as `Int`, placeholder payloads carry nothing. -/
inductive ContextPropertyValue where
  | Platform (p : Int)
  | InteropUserSync (b : Bool)
  | D3d10DeviceKhr (v : Int)
  | GlContextKhr (v : Int)
  | EglDisplayKhr (v : Int)
  | GlxDisplayKhr (v : Int)
  | CglSharegroupKhr (v : Int)
  | WglHdcKhr (v : Int)
  | AdapterD3d9Khr
  | AdapterD3d9exKhr
  | AdapterDxvaKhr
  | D3d11DeviceKhr
  deriving Repr, DecidableEq

/-- `Debug`-style name of a value variant, as interpolated into the
`set_property_value` panic message. -/
def ContextPropertyValue.debugStr : ContextPropertyValue → String
  | .Platform _ => "Platform"
  | .InteropUserSync _ => "InteropUserSync"
  | .D3d10DeviceKhr _ => "D3d10DeviceKhr"
  | .GlContextKhr _ => "GlContextKhr"
  | .EglDisplayKhr _ => "EglDisplayKhr"
  | .GlxDisplayKhr _ => "GlxDisplayKhr"
  | .CglSharegroupKhr _ => "CglSharegroupKhr"
  | .WglHdcKhr _ => "WglHdcKhr"
  | .AdapterD3d9Khr => "AdapterD3d9Khr"
  | .AdapterD3d9exKhr => "AdapterD3d9exKhr"
  | .AdapterDxvaKhr => "AdapterDxvaKhr"
  | .D3d11DeviceKhr => "D3d11DeviceKhr"

/-- Embedding of `struct ContextProperties(HashMap<..>)` as an
association list of its entries. -/
structure ContextProperties where
  entries : List (ContextProperty × ContextPropertyValue)
  deriving Repr, DecidableEq

/-- `HashMap::insert`: replace any existing binding of the key, keeping
at most one entry per key (new bindings go to the back). -/
def mapInsert : List (ContextProperty × ContextPropertyValue) →
    ContextProperty → ContextPropertyValue →
    List (ContextProperty × ContextPropertyValue)
  | [], k, v => [(k, v)]
  | e :: rest, k, v =>
    if e.1 = k then mapInsert rest k v else e :: mapInsert rest k v

/-- `HashMap::get`: the binding of the key, if any. -/
def mapGet : List (ContextProperty × ContextPropertyValue) →
    ContextProperty → Option ContextPropertyValue
  | [], _ => none
  | e :: rest, k => if e.1 = k then some e.2 else mapGet rest k

/-- `ContextProperties::new` (structs.rs:365–367). -/
def ContextProperties.new : ContextProperties := { entries := [] }

/-- `ContextProperties::set_platform` (structs.rs:403–405). -/
def ContextProperties.set_platform (cp : ContextProperties) (p : Int) :
    ContextProperties :=
  { entries := mapInsert cp.entries .Platform (.Platform p) }

/-- `ContextProperties::set_interop_user_sync` (structs.rs:409–411). -/
def ContextProperties.set_interop_user_sync (cp : ContextProperties) (sync : Bool) :
    ContextProperties :=
  { entries := mapInsert cp.entries .InteropUserSync (.InteropUserSync sync) }

/-- `ContextProperties::set_gl_context` (structs.rs:414–416). -/
def ContextProperties.set_gl_context (cp : ContextProperties) (gl_ctx : Int) :
    ContextProperties :=
  { entries := mapInsert cp.entries .GlContextKhr (.GlContextKhr gl_ctx) }

/-- `ContextProperties::set_cgl_sharegroup` (structs.rs:420–422). -/
def ContextProperties.set_cgl_sharegroup (cp : ContextProperties) (sg : Int) :
    ContextProperties :=
  { entries := mapInsert cp.entries .CglSharegroupKhr (.CglSharegroupKhr sg) }

/-- `ContextProperties::set_property_value` (structs.rs:425–444): only
the four supported variants are inserted; any other variant panics. -/
def ContextProperties.set_property_value (cp : ContextProperties)
    (prop : ContextPropertyValue) : RustOutcome ContextProperties :=
  match prop with
  | .Platform val =>
    .ok { entries := mapInsert cp.entries .Platform (.Platform val) }
  | .InteropUserSync val =>
    .ok { entries := mapInsert cp.entries .InteropUserSync (.InteropUserSync val) }
  | .GlContextKhr val =>
    .ok { entries := mapInsert cp.entries .GlContextKhr (.GlContextKhr val) }
  | .CglSharegroupKhr val =>
    .ok { entries := mapInsert cp.entries .CglSharegroupKhr (.CglSharegroupKhr val) }
  | other =>
    .fatal ("'" ++ other.debugStr ++ "' is not yet a supported variant.")

/-- Builder-style `ContextProperties::platform` (structs.rs:370–373). -/
def ContextProperties.platform (cp : ContextProperties) (p : Int) : ContextProperties :=
  cp.set_platform p

/-- Builder-style `ContextProperties::interop_user_sync` (structs.rs:377–380). -/
def ContextProperties.interop_user_sync (cp : ContextProperties) (sync : Bool) :
    ContextProperties :=
  cp.set_interop_user_sync sync

/-- Builder-style `ContextProperties::gl_context` (structs.rs:383–386). -/
def ContextProperties.gl_context (cp : ContextProperties) (gl_ctx : Int) :
    ContextProperties :=
  cp.set_gl_context gl_ctx

/-- Builder-style `ContextProperties::cgl_sharegroup` (structs.rs:390–393). -/
def ContextProperties.cgl_sharegroup (cp : ContextProperties) (sg : Int) :
    ContextProperties :=
  cp.set_cgl_sharegroup sg

/-- Builder-style `ContextProperties::property_value` (structs.rs:397–400). -/
def ContextProperties.property_value (cp : ContextProperties)
    (prop : ContextPropertyValue) : RustOutcome ContextProperties :=
  cp.set_property_value prop

/-- `ContextProperties::get_platform` (structs.rs:447–458): `None` when
the key is absent, the stored platform when the `Platform` variant is
stored, and a panic when any other variant is stored under the key. -/
def ContextProperties.get_platform (cp : ContextProperties) :
    RustOutcome (Option Int) :=
  match mapGet cp.entries .Platform with
  | some (.Platform plat) => .ok (some plat)
  | some _ => .fatal "Internal error returning platform."
  | none => .ok none

/-- `ContextProperties::get_cgl_sharegroup` (structs.rs:461–472). -/
def ContextProperties.get_cgl_sharegroup (cp : ContextProperties) :
    RustOutcome (Option Int) :=
  match mapGet cp.entries .CglSharegroupKhr with
  | some (.CglSharegroupKhr sg) => .ok (some sg)
  | some _ => .fatal "Internal error returning cgl_sharegroup."
  | none => .ok none

/-- Per-entry emission of `to_raw` (structs.rs:488–502): the key word
then the value word, for the three variants the match handles; all other
variants hit the `panic!` arm (note `GlContextKhr` is NOT handled). -/
def toRawEntry (e : ContextProperty × ContextPropertyValue) :
    RustOutcome (List Int) :=
  match e.2 with
  | .Platform platform_id_core => .ok [e.1.toRaw, platform_id_core]
  | .InteropUserSync sync => .ok [e.1.toRaw, if sync then 1 else 0]
  | .CglSharegroupKhr sync => .ok [e.1.toRaw, sync]
  | _ => .fatal ("'" ++ e.1.debugStr ++ "' is not yet a supported variant.")

/-- Entry loop of `to_raw` (structs.rs:485–503). -/
def toRawLoop : List (ContextProperty × ContextPropertyValue) →
    RustOutcome (List Int)
  | [] => .ok []
  | e :: rest =>
    match toRawEntry e with
    | .fatal m => .fatal m
    | .ok ws =>
      match toRawLoop rest with
      | .fatal m => .fatal m
      | .ok rest_ws => .ok (ws ++ rest_ws)

/-- `ContextProperties::to_raw` (structs.rs:480–511): the per-entry pairs
followed by a terminating 0 word. -/
def ContextProperties.to_raw (cp : ContextProperties) : RustOutcome (List Int) :=
  match toRawLoop cp.entries with
  | .fatal m => .fatal m
  | .ok ws => .ok (ws ++ [0])

/-! ## Auxiliary definitions used by the theorems -/

/-- Whether an `Except` result is a success. -/
def exceptIsOk {α : Type} : Except String α → Bool
  | .ok _ => true
  | .error _ => false

/-- Concrete native environment for witnesses: every call succeeds,
callbacks feature disabled. -/
def envW : UnmapEnv :=
  { enqueue_unmap_mem_object := fun _ _ => .ok ()
    validate := .ok 0
    retain_event := fun _ => .ok ()
    set_callback := fun _ => .ok ()
    feature_event_callbacks := false }

/-- `envW` with the `future_event_callbacks` feature enabled. -/
def envWF : UnmapEnv := { envW with feature_event_callbacks := true }

/-- Concrete still-mapped region for witnesses. -/
def mmW : MappedMem :=
  { ptr := 16, len := 2, buffer := 3, queue := 4, unmap_event := none,
    callback_is_set := false, is_unmapped := false }

/-- Concrete already-unmapped region for witnesses. -/
def mmU : MappedMem := { mmW with is_unmapped := true }

/-- Concrete build environment for witnesses: one device specifier id 7
resolving to the empty list, a one-file file system, a native entry
point that always succeeds. -/
def benvW : BuildEnv :=
  { to_device_list := fun ds => if ds = 7 then .ok [] else .ok [1]
    files := { readFile := fun p => if p = "k.cl" then .ok "kern" else .error "io" }
    create_build_program := fun _ _ _ => .ok 99 }

/-! ## Flag-assembly views and fixtures (C7) -/

/-- Whether a `BuildOpt` belongs to the compiler category
(`CmplrDefine` / `CmplrInclDir` / `CmplrOther`). -/
def isCmplrCategory : BuildOpt → Bool
  | .CmplrDefine _ _ => true
  | .CmplrInclDir _ => true
  | .CmplrOther _ => true
  | _ => false

/-- Rendering of a compiler-category `BuildOpt` as a flag token. -/
def renderCmplrFlag : BuildOpt → String
  | .CmplrDefine ident val => "-D" ++ ident ++ "=" ++ val
  | .CmplrInclDir path => "-I" ++ path
  | .CmplrOther s => s
  | _ => ""

/-- Concrete builder for the C7 witness: interleaves all six directive
kinds. -/
def builderW : ProgramBuilder :=
  ((((((ProgramBuilder.cmplr_def ProgramBuilder.new "W" 1).bo
      (BuildOpt.IncludeDefine "N" "2")).bo
      (BuildOpt.CmplrInclDir "inc")).bo
      (BuildOpt.IncludeCore "core")).cmplr_opt "-cl-fast").src "tail")

/-! ## Source-assembly views and fixtures (C1) -/

/-- Rendering of a source-category directive included at the head of the
program source (`IncludeDefine` as a `#define` line, `IncludeCore`
verbatim); `none` for other variants. -/
def renderSrcInclude : BuildOpt → Option String
  | .IncludeDefine ident val => some ("#define " ++ ident ++ "  " ++ val ++ "\n")
  | .IncludeCore text => some text
  | _ => none

/-- Rendering of an end-of-source directive (`IncludeRawEof` verbatim). -/
def renderSrcAppend : BuildOpt → Option String
  | .IncludeRawEof text => some text
  | _ => none

/-- First-occurrence deduplication relative to a history: keeps each path
the first time it appears and is not already in the history. -/
def dedupFirstAux (hist : List String) : List String → List String
  | [] => []
  | p :: rest =>
    if p ∈ hist then dedupFirstAux hist rest
    else p :: dedupFirstAux (p :: hist) rest

/-- First-occurrence deduplication of a path list. -/
def dedupFirst (l : List String) : List String := dedupFirstAux [] l

/-- The contents a file read delivers on success (junk on failure; only
used under a success hypothesis). -/
def fileContent (env : FileEnv) (p : String) : String :=
  match env.readFile p with
  | .ok c => c
  | .error _ => ""

/-- Boolean check: the head-include rendering of `o` (if any) is NUL-free. -/
def srcIncludeOk (o : BuildOpt) : Bool :=
  match renderSrcInclude o with
  | some s => !(s.data.contains (Char.ofNat 0))
  | none => true

/-- Boolean check: the EOF-append rendering of `o` (if any) is NUL-free. -/
def srcAppendOk (o : BuildOpt) : Bool :=
  match renderSrcAppend o with
  | some s => !(s.data.contains (Char.ofNat 0))
  | none => true

/-- Boolean check: reading `p` succeeds with NUL-free contents. -/
def fileOkB (env : FileEnv) (p : String) : Bool :=
  match env.readFile p with
  | .ok c => !(c.data.contains (Char.ofNat 0))
  | .error _ => false

/-- Concrete file system for the C1 witness. -/
def fenvW : FileEnv :=
  { readFile := fun p =>
      if p = "a.cl" then .ok "AA"
      else if p = "b.cl" then .ok "BB"
      else if p = "c.cl" then .ok "CC"
      else .error "io" }

/-- Concrete builder for the C1 witness: one include define, one core
include, one raw-EOF append, and files `[a.cl, b.cl, c.cl]` added in
that order. -/
def builderC1 : ProgramBuilder :=
  ((((ProgramBuilder.new.bo (BuildOpt.IncludeDefine "N" "3")).bo
    (BuildOpt.IncludeCore "core")).src "tail").src_file "a.cl").src_file
    "b.cl" |>.src_file "c.cl"

/-- `builderC1` with `a.cl` added a second time. -/
def builderC1dup : ProgramBuilder := builderC1.src_file "a.cl"

/-! ## Property-list views, setter-call sequences and fixtures (C4, C10) -/

/-- The value variants `to_raw` actually handles (note `GlContextKhr` is
absent: its match arm does not exist in `to_raw`). -/
def toRawSupported : ContextPropertyValue → Bool
  | .Platform _ => true
  | .InteropUserSync _ => true
  | .CglSharegroupKhr _ => true
  | _ => false

/-- The two words `to_raw` emits for a handled entry. -/
def entryWords (e : ContextProperty × ContextPropertyValue) : List Int :=
  match e.2 with
  | .Platform p => [e.1.toRaw, p]
  | .InteropUserSync b => [e.1.toRaw, if b then 1 else 0]
  | .CglSharegroupKhr v => [e.1.toRaw, v]
  | _ => []

/-- One step of the reachable-state construction for C10: a call to one
of the public in-place setters (the builder-style methods delegate to
these, so they generate the same states). -/
inductive CtxOp where
  | set_platform (p : Int)
  | set_interop_user_sync (b : Bool)
  | set_gl_context (v : Int)
  | set_cgl_sharegroup (v : Int)
  | set_property_value (v : ContextPropertyValue)

/-- Apply one setter call. -/
def applyCtxOp (cp : ContextProperties) : CtxOp → RustOutcome ContextProperties
  | .set_platform p => .ok (cp.set_platform p)
  | .set_interop_user_sync b => .ok (cp.set_interop_user_sync b)
  | .set_gl_context v => .ok (cp.set_gl_context v)
  | .set_cgl_sharegroup v => .ok (cp.set_cgl_sharegroup v)
  | .set_property_value v => cp.set_property_value v

/-- Apply a sequence of setter calls, stopping at the first panic. -/
def applyCtxOps (cp : ContextProperties) : List CtxOp → RustOutcome ContextProperties
  | [] => .ok cp
  | op :: rest =>
    match applyCtxOp cp op with
    | .fatal m => .fatal m
    | .ok cp2 => applyCtxOps cp2 rest

/-- Effect of one setter call on the platform entry. -/
def platStep (acc : Option Int) : CtxOp → Option Int
  | .set_platform p => some p
  | .set_property_value (.Platform p) => some p
  | _ => acc

/-- Effect of one setter call on the CGL-sharegroup entry. -/
def cglStep (acc : Option Int) : CtxOp → Option Int
  | .set_cgl_sharegroup v => some v
  | .set_property_value (.CglSharegroupKhr v) => some v
  | _ => acc

/-- The most recently set platform over a call sequence, if any. -/
def lastPlatform (ops : List CtxOp) : Option Int := ops.foldl platStep none

/-- The most recently set CGL sharegroup over a call sequence, if any. -/
def lastCgl (ops : List CtxOp) : Option Int := ops.foldl cglStep none

/-- An entry is well formed when the stored value variant matches its
key. -/
def entryWellFormed : ContextProperty × ContextPropertyValue → Bool
  | (.Platform, .Platform _) => true
  | (.InteropUserSync, .InteropUserSync _) => true
  | (.GlContextKhr, .GlContextKhr _) => true
  | (.CglSharegroupKhr, .CglSharegroupKhr _) => true
  | _ => false

/-- Every stored entry matches its key. -/
def WF (cp : ContextProperties) : Prop :=
  ∀ e ∈ cp.entries, entryWellFormed e = true

/-- The platform value the map holds (semantic view). -/
def platLookup (cp : ContextProperties) : Option Int :=
  match mapGet cp.entries .Platform with
  | some (.Platform p) => some p
  | _ => none

/-- The CGL-sharegroup value the map holds (semantic view). -/
def cglLookup (cp : ContextProperties) : Option Int :=
  match mapGet cp.entries .CglSharegroupKhr with
  | some (.CglSharegroupKhr v) => some v
  | _ => none

/-- Concrete setter-call sequence for the C10 witness: sets the platform
twice (3 then 5), the sharegroup once (4), and one generic-value call. -/
def opsW : List CtxOp :=
  [.set_platform 3, .set_cgl_sharegroup 4, .set_platform 5,
   .set_property_value (.InteropUserSync true)]

/-- The property list `opsW` produces. -/
def cpW10 : ContextProperties :=
  { entries := [(.CglSharegroupKhr, .CglSharegroupKhr 4),
                (.Platform, .Platform 5),
                (.InteropUserSync, .InteropUserSync true)] }


/-! ## Theorems

Shared helper lemmas first, then one theorem per claim (with a closed
witness instantiating each theorem that carries hypotheses). -/

theorem cstring_new_ok {s : String} (h : NulFree s) : cstring_new s = .ok s := by
  unfold cstring_new
  unfold NulFree at h
  have h' : Char.ofNat 0 ∉ s.data := by simpa using h
  simp [h']

/-! ## Helper lemmas (shared) -/

theorem register_event_trigger_is_unmapped (env : UnmapEnv) (mm : MappedMem)
    (ev : Nat) :
    (MappedMem.register_event_trigger env mm ev).2.is_unmapped = mm.is_unmapped := by
  unfold MappedMem.register_event_trigger
  by_cases h : mm.callback_is_set
  · simp [h]
  · simp only [h, Bool.not_false, if_true]
    cases env.set_callback ev <;> simp

theorem unmap_already_unmapped (env : UnmapEnv) (mm : MappedMem) (q : Option Nat)
    (en : Bool) (h : mm.is_unmapped = true) :
    MappedMem.unmap env mm q en =
      (.error "ocl_core::MappedMem::unmap: Already unmapped.", mm, false) := by
  unfold MappedMem.unmap
  simp [h]

theorem unmap_enqueue_error (env : UnmapEnv) (mm : MappedMem) (q : Option Nat)
    (en : Bool) (e : String) (h : mm.is_unmapped = false)
    (henq : env.enqueue_unmap_mem_object (q.getD mm.queue) mm.buffer = .error e) :
    MappedMem.unmap env mm q en = (.error e, mm, true) := by
  unfold MappedMem.unmap
  simp [h, henq]

theorem unmap_is_unmapped_eq (env : UnmapEnv) (mm : MappedMem) (q : Option Nat)
    (en : Bool) :
    (MappedMem.unmap env mm q en).2.1.is_unmapped =
      (mm.is_unmapped ||
        exceptIsOk (env.enqueue_unmap_mem_object (q.getD mm.queue) mm.buffer)) := by
  unfold MappedMem.unmap
  by_cases h : mm.is_unmapped
  · simp [h]
  · replace h : mm.is_unmapped = false := by simpa using h
    simp only [h, Bool.not_false, if_true, Bool.false_or]
    cases henq : env.enqueue_unmap_mem_object (q.getD mm.queue) mm.buffer with
    | error e => simp [exceptIsOk, h]
    | ok u =>
      simp only [exceptIsOk]
      by_cases hw : (mm.unmap_event.isSome || en) = true
      · simp only [hw, if_true]
        cases env.validate with
        | error e => simp
        | ok ev =>
          cases hr : (if en then env.retain_event ev else Except.ok ()) with
          | error e => simp [hr]
          | ok u2 =>
            simp only [hr]
            by_cases hf : env.feature_event_callbacks
            · simp only [hf, if_true]
              cases hreg : MappedMem.register_event_trigger env
                  { mm with is_unmapped := true } ev with
              | mk r mm2 =>
                have h2 : mm2.is_unmapped = true := by
                  have := register_event_trigger_is_unmapped env
                    { mm with is_unmapped := true } ev
                  rw [hreg] at this
                  simpa using this
                cases r <;> simp [h2]
            · simp [hf]
      · simp [hw]

theorem unmap_ok_unmapped (env : UnmapEnv) (mm : MappedMem) (q : Option Nat)
    (en : Bool) (h : (MappedMem.unmap env mm q en).1 = .ok ()) :
    (MappedMem.unmap env mm q en).2.1.is_unmapped = true := by
  by_cases hm : mm.is_unmapped
  · rw [unmap_already_unmapped env mm q en hm] at h
    simp at h
  · cases henq : env.enqueue_unmap_mem_object (q.getD mm.queue) mm.buffer with
    | error e =>
      rw [unmap_enqueue_error env mm q en e (by simpa using hm) henq] at h
      simp at h
    | ok u =>
      rw [unmap_is_unmapped_eq env mm q en, henq]
      simp [exceptIsOk]

/-! ## Claim theorems: MappedMem -/

/-- C2: once `unmap` has succeeded on a `MappedMem` region, a second
`unmap` call (with any queue override, wait list, or out-event argument,
under any native environment) returns the "Already unmapped." error,
does not invoke the native unmap enqueue, and leaves every field of the
region unchanged. -/
theorem C2_second_unmap_rejected (env1 env2 : UnmapEnv) (mm : MappedMem)
    (q1 q2 : Option Nat) (e1 e2 : Bool)
    (h : (MappedMem.unmap env1 mm q1 e1).1 = .ok ()) :
    MappedMem.unmap env2 (MappedMem.unmap env1 mm q1 e1).2.1 q2 e2 =
      (.error "ocl_core::MappedMem::unmap: Already unmapped.",
       (MappedMem.unmap env1 mm q1 e1).2.1, false) :=
  unmap_already_unmapped env2 _ q2 e2 (unmap_ok_unmapped env1 mm q1 e1 h)

/-- Witness for C2 at a concrete region and environment. -/
theorem C2_second_unmap_rejected_witness :
    (MappedMem.unmap envW mmW none false).1 = .ok () ∧
    MappedMem.unmap envW (MappedMem.unmap envW mmW none false).2.1 none false =
      (.error "ocl_core::MappedMem::unmap: Already unmapped.",
       (MappedMem.unmap envW mmW none false).2.1, false) :=
  ⟨rfl, C2_second_unmap_rejected envW envW mmW none none false false rfl⟩

/-- C3: the `is_unmapped` flag starts false at construction; after
`unmap` it equals "was already unmapped, or the native unmap enqueue
succeeded" (so it becomes true exactly when the enqueue succeeds, stays
true through later validate/retain failures, and stays false when the
enqueue itself fails); `mapped_mem_set_unmapped` only sets it true;
`register_event_trigger` never changes it; and a successful `drop` never
resets it from true to false. -/
theorem C3_is_unmapped_monotone :
    (∀ ptr len ev buf q mm', MappedMem.new ptr len ev buf q = .ok mm' →
        mm'.is_unmapped = false) ∧
    (∀ env mm q en, (MappedMem.unmap env mm q en).2.1.is_unmapped =
        (mm.is_unmapped ||
          exceptIsOk (env.enqueue_unmap_mem_object (q.getD mm.queue) mm.buffer))) ∧
    (∀ mm, (mapped_mem_set_unmapped mm).is_unmapped = true) ∧
    (∀ env mm ev,
        (MappedMem.register_event_trigger env mm ev).2.is_unmapped =
          mm.is_unmapped) ∧
    (∀ env mm mm', mm.is_unmapped = true → MappedMem.drop env mm = .ok mm' →
        mm'.is_unmapped = true) := by
  refine ⟨?_, unmap_is_unmapped_eq, fun mm => rfl,
    register_event_trigger_is_unmapped, ?_⟩
  · intro ptr len ev buf q mm' h
    unfold MappedMem.new at h
    by_cases hp : ptr = 0
    · simp [hp] at h
    · simp only [hp, if_false] at h
      cases h
      rfl
  · intro env mm mm' hm h
    unfold MappedMem.drop at h
    by_cases hf : env.feature_event_callbacks <;> simp [hf, hm] at h <;>
      cases h <;> exact hm

/-- Witness for C3 at concrete inputs. -/
theorem C3_is_unmapped_monotone_witness :
    ({ ptr := 16, len := 2, buffer := 3, queue := 4, unmap_event := none,
       callback_is_set := false, is_unmapped := false } : MappedMem).is_unmapped
        = false ∧
    (MappedMem.unmap envW mmW none false).2.1.is_unmapped =
      (mmW.is_unmapped ||
        exceptIsOk (envW.enqueue_unmap_mem_object ((none : Option Nat).getD mmW.queue)
          mmW.buffer)) ∧
    (mapped_mem_set_unmapped mmW).is_unmapped = true ∧
    (MappedMem.register_event_trigger envW mmW 0).2.is_unmapped = mmW.is_unmapped ∧
    mmU.is_unmapped = true :=
  ⟨C3_is_unmapped_monotone.1 16 2 none 3 4 _ rfl,
   C3_is_unmapped_monotone.2.1 envW mmW none false,
   C3_is_unmapped_monotone.2.2.1 mmW,
   C3_is_unmapped_monotone.2.2.2.1 envW mmW 0,
   C3_is_unmapped_monotone.2.2.2.2 envW mmU mmU rfl rfl⟩

/-- C6: slice access through `Deref` or `DerefMut` on an unmapped region
is a fatal precondition failure; on a still-mapped region both return
the view over `[ptr, ptr+len)`. -/
theorem C6_deref_gated (mem : Nat → Int) (mm : MappedMem) :
    (mm.is_unmapped = true →
      MappedMem.deref mem mm = .fatal derefFatalMsg ∧
      MappedMem.deref_mut mem mm = .fatal derefFatalMsg) ∧
    (mm.is_unmapped = false →
      MappedMem.deref mem mm =
        .ok ((List.range mm.len).map (fun i => mem (mm.ptr + i))) ∧
      MappedMem.deref_mut mem mm =
        .ok ((List.range mm.len).map (fun i => mem (mm.ptr + i)))) := by
  constructor <;> intro h <;>
    constructor <;> simp [MappedMem.deref, MappedMem.deref_mut, h]

/-- Witness for C6 at a concrete region (both flag values). -/
theorem C6_deref_gated_witness :
    (MappedMem.deref (fun a => (a : Int)) mmU = .fatal derefFatalMsg ∧
     MappedMem.deref_mut (fun a => (a : Int)) mmU = .fatal derefFatalMsg) ∧
    (MappedMem.deref (fun a => (a : Int)) mmW =
       .ok ((List.range mmW.len).map (fun i => ((mmW.ptr + i : Nat) : Int))) ∧
     MappedMem.deref_mut (fun a => (a : Int)) mmW =
       .ok ((List.range mmW.len).map (fun i => ((mmW.ptr + i : Nat) : Int)))) :=
  ⟨(C6_deref_gated (fun a => (a : Int)) mmU).1 rfl,
   (C6_deref_gated (fun a => (a : Int)) mmW).2 rfl⟩

/-- C9: dropping an already-unmapped region is a no-op (both build
variants); dropping a still-mapped region is a fatal assertion under
builds without the deferred-callback feature, and under
deferred-callback builds performs a best-effort unmap whose result is
discarded (the drop succeeds with the post-unmap state regardless of
the unmap outcome). -/
theorem C9_drop_policy (env : UnmapEnv) (mm : MappedMem) :
    (mm.is_unmapped = true → MappedMem.drop env mm = .ok mm) ∧
    (mm.is_unmapped = false → env.feature_event_callbacks = false →
      MappedMem.drop env mm = .fatal dropFatalMsg) ∧
    (mm.is_unmapped = false → env.feature_event_callbacks = true →
      MappedMem.drop env mm = .ok (MappedMem.unmap env mm none false).2.1) := by
  refine ⟨fun h => ?_, fun h hf => ?_, fun h hf => ?_⟩ <;> unfold MappedMem.drop
  · by_cases hf2 : env.feature_event_callbacks <;> simp [hf2, h]
  · simp [hf, h]
  · simp [hf, h]

/-- Witness for C9 at concrete regions and environments. -/
theorem C9_drop_policy_witness :
    (MappedMem.drop envW mmU = .ok mmU ∧ MappedMem.drop envWF mmU = .ok mmU) ∧
    MappedMem.drop envW mmW = .fatal dropFatalMsg ∧
    MappedMem.drop envWF mmW = .ok (MappedMem.unmap envWF mmW none false).2.1 :=
  ⟨⟨(C9_drop_policy envW mmU).1 rfl, (C9_drop_policy envWF mmU).1 rfl⟩,
   (C9_drop_policy envW mmW).2.1 rfl rfl,
   (C9_drop_policy envWF mmW).2.2 rfl rfl⟩

/-! ## Claim theorems: ProgramBuilder device specifier and build -/

/-- C8 counterexample: `ProgramBuilder::devices` returns the builder by
value with no error channel; on a builder that already holds a device
specifier the second call hits the `assert!` and panics (a fatal abort,
message "Devices already specified"), rather than surfacing a
caller-fixable configuration error as an explicit result value. -/
theorem C8_counterexample :
    ProgramBuilder.new.devices 1 =
      .ok { ProgramBuilder.new with device_spec := some 1 } ∧
    ({ ProgramBuilder.new with device_spec := some 1 } : ProgramBuilder).devices 2 =
      .fatal "ocl::ProgramBuilder::devices(): Devices already specified" :=
  ⟨rfl, rfl⟩

/-- C8 (amended): setting a device specifier on a `ProgramBuilder` that
already has one fails on the second call with a fatal assertion (panic),
not a silent overwrite: no builder with a replaced specifier is ever
produced, so the first specifier remains the stored one; a first call on
a builder without a specifier stores the given one. -/
theorem C8_devices_single_specifier (b : ProgramBuilder) (d : Nat) :
    (∀ d0, b.device_spec = some d0 →
      b.devices d =
        .fatal "ocl::ProgramBuilder::devices(): Devices already specified") ∧
    (b.device_spec = none →
      b.devices d = .ok { b with device_spec := some d }) := by
  constructor
  · intro d0 h
    simp [ProgramBuilder.devices, h]
  · intro h
    simp [ProgramBuilder.devices, h]

/-- Witness for C8 (amended) at a concrete builder. -/
theorem C8_devices_single_specifier_witness :
    ({ ProgramBuilder.new with device_spec := some 1 } : ProgramBuilder).devices 2 =
      .fatal "ocl::ProgramBuilder::devices(): Devices already specified" ∧
    ProgramBuilder.new.devices 1 =
      .ok { ProgramBuilder.new with device_spec := some 1 } :=
  ⟨(C8_devices_single_specifier
      { ProgramBuilder.new with device_spec := some 1 } 2).1 1 rfl,
   (C8_devices_single_specifier ProgramBuilder.new 1).2 rfl⟩

/-- C5: when the device specifier resolves to an empty device list
(including the unset-specifier case, which resolves to the empty list),
`build` returns the "No devices found." configuration error, reads no
source file, and never invokes the native create-and-build entry
point. -/
theorem C5_build_no_devices (env : BuildEnv) (b : ProgramBuilder)
    (h : b.device_spec = none ∨
      ∃ ds, b.device_spec = some ds ∧ env.to_device_list ds = .ok []) :
    ProgramBuilder.build env b =
      (.error "ocl::ProgramBuilder::build: No devices found.",
       { filesRead := [], nativeCalled := false }) := by
  unfold ProgramBuilder.build
  rcases h with h | ⟨ds, hds, hres⟩
  · simp [h]
  · simp [hds, hres]

/-- Witness for C5: both the unset-specifier case and an empty-resolving
specifier, on a builder that lists a readable source file (which must
not be read). -/
theorem C5_build_no_devices_witness :
    ProgramBuilder.build benvW (ProgramBuilder.new.src_file "k.cl") =
      (.error "ocl::ProgramBuilder::build: No devices found.",
       { filesRead := [], nativeCalled := false }) ∧
    (match (ProgramBuilder.new.src_file "k.cl").devices 7 with
     | .ok b2 => ProgramBuilder.build benvW b2 =
        (.error "ocl::ProgramBuilder::build: No devices found.",
         { filesRead := [], nativeCalled := false })
     | .fatal _ => False) :=
  ⟨C5_build_no_devices benvW _ (Or.inl rfl),
   C5_build_no_devices benvW _ (Or.inr ⟨7, rfl, rfl⟩)⟩

theorem cmplrOptsLoop_eq (l : List BuildOpt) :
    cmplrOptsLoop l = (l.filter isCmplrCategory).map renderCmplrFlag := by
  induction l with
  | nil => rfl
  | cons o rest ih =>
    cases o <;> simp [cmplrOptsLoop, isCmplrCategory, renderCmplrFlag, ih]

/-- C7: `get_compiler_options` is the space-separated join of a leading
blank token followed by the renderings (`-D{name}={val}`, `-I{path}`,
raw text) of exactly the compiler-category options, in their original
relative insertion order — every source-category directive
(`IncludeDefine`/`IncludeCore`/`IncludeRawEof`) is excluded — wrapped in
`CString::new` (which succeeds when the join is NUL-free). -/
theorem C7_compiler_options (b : ProgramBuilder)
    (h : NulFree (String.intercalate " "
      (" " :: (b.options.filter isCmplrCategory).map renderCmplrFlag))) :
    b.get_compiler_options =
      .ok (String.intercalate " "
        (" " :: (b.options.filter isCmplrCategory).map renderCmplrFlag)) := by
  unfold ProgramBuilder.get_compiler_options
  rw [cmplrOptsLoop_eq]
  exact cstring_new_ok h

/-- Witness for C7: on `builderW` the assembled flag string keeps the
three compiler-category options in order and drops the three
source-category directives. -/
theorem C7_compiler_options_witness :
    NulFree (String.intercalate " "
      (" " :: (builderW.options.filter isCmplrCategory).map renderCmplrFlag)) ∧
    builderW.get_compiler_options = .ok "  -DW=1 -Iinc -cl-fast" := by
  refine ⟨by decide, ?_⟩
  have h := C7_compiler_options builderW (by decide)
  rw [h]
  have he : String.intercalate " "
      (" " :: (builderW.options.filter isCmplrCategory).map renderCmplrFlag) =
      "  -DW=1 -Iinc -cl-fast" := by decide
  rw [he]

theorem all_srcIncludeOk {l : List BuildOpt} (h : l.all srcIncludeOk = true) :
    ∀ o ∈ l, ∀ s, renderSrcInclude o = some s → NulFree s := by
  intro o ho s hs
  have := List.all_eq_true.1 h o ho
  unfold srcIncludeOk at this
  rw [hs] at this
  unfold NulFree
  simpa using this

theorem all_srcAppendOk {l : List BuildOpt} (h : l.all srcAppendOk = true) :
    ∀ o ∈ l, ∀ s, renderSrcAppend o = some s → NulFree s := by
  intro o ho s hs
  have := List.all_eq_true.1 h o ho
  unfold srcAppendOk at this
  rw [hs] at this
  unfold NulFree
  simpa using this

theorem all_fileOkB {env : FileEnv} {l : List String}
    (h : l.all (fileOkB env) = true) :
    ∀ p ∈ l, env.readFile p = .ok (fileContent env p) ∧
      NulFree (fileContent env p) := by
  intro p hp
  have := List.all_eq_true.1 h p hp
  unfold fileOkB at this
  unfold fileContent NulFree
  cases hr : env.readFile p with
  | error e => rw [hr] at this; simp at this
  | ok c => rw [hr] at this; simpa using this

theorem kernelIncludesLoop_eq (l : List BuildOpt)
    (h : ∀ o ∈ l, ∀ s, renderSrcInclude o = some s → NulFree s) :
    kernelIncludesLoop l = .ok (l.filterMap renderSrcInclude) := by
  induction l with
  | nil => rfl
  | cons o rest ih =>
    have hrest := fun o' ho' => h o' (List.mem_cons_of_mem _ ho')
    have hih := ih hrest
    cases o with
    | IncludeDefine ident val =>
      have hn : NulFree ("#define " ++ ident ++ "  " ++ val ++ "\n") :=
        h _ (List.mem_cons_self _ _) _ rfl
      simp [kernelIncludesLoop, cstring_new_ok hn, hih, renderSrcInclude]
    | IncludeCore text =>
      have hn : NulFree text := h _ (List.mem_cons_self _ _) _ rfl
      simp [kernelIncludesLoop, cstring_new_ok hn, hih, renderSrcInclude]
    | CmplrDefine ident val => simpa [kernelIncludesLoop, renderSrcInclude] using hih
    | CmplrInclDir path => simpa [kernelIncludesLoop, renderSrcInclude] using hih
    | CmplrOther s => simpa [kernelIncludesLoop, renderSrcInclude] using hih
    | IncludeRawEof text => simpa [kernelIncludesLoop, renderSrcInclude] using hih

theorem kernelIncludesEofLoop_eq (l : List BuildOpt)
    (h : ∀ o ∈ l, ∀ s, renderSrcAppend o = some s → NulFree s) :
    kernelIncludesEofLoop l = .ok (l.filterMap renderSrcAppend) := by
  induction l with
  | nil => rfl
  | cons o rest ih =>
    have hrest := fun o' ho' => h o' (List.mem_cons_of_mem _ ho')
    have hih := ih hrest
    cases o with
    | IncludeRawEof text =>
      have hn : NulFree text := h _ (List.mem_cons_self _ _) _ rfl
      simp [kernelIncludesEofLoop, cstring_new_ok hn, hih, renderSrcAppend]
    | CmplrDefine ident val => simpa [kernelIncludesEofLoop, renderSrcAppend] using hih
    | CmplrInclDir path => simpa [kernelIncludesEofLoop, renderSrcAppend] using hih
    | CmplrOther s => simpa [kernelIncludesEofLoop, renderSrcAppend] using hih
    | IncludeDefine ident val => simpa [kernelIncludesEofLoop, renderSrcAppend] using hih
    | IncludeCore text => simpa [kernelIncludesEofLoop, renderSrcAppend] using hih

theorem srcFilesLoop_eq (env : FileEnv) (l : List String) :
    ∀ hist : List String,
      (∀ p ∈ dedupFirstAux hist l,
        env.readFile p = .ok (fileContent env p) ∧ NulFree (fileContent env p)) →
      srcFilesLoop env l hist =
        (.ok ((dedupFirstAux hist l).map (fileContent env)), dedupFirstAux hist l) := by
  induction l with
  | nil => intro hist _; rfl
  | cons p rest ih =>
    intro hist h
    by_cases hc : p ∈ hist
    · have hd : dedupFirstAux hist (p :: rest) = dedupFirstAux hist rest := by
        simp [dedupFirstAux, hc]
      rw [hd] at h ⊢
      have := ih hist h
      simpa [srcFilesLoop, hc] using this
    · have hd : dedupFirstAux hist (p :: rest) =
          p :: dedupFirstAux (p :: hist) rest := by
        simp [dedupFirstAux, hc]
      rw [hd] at h ⊢
      obtain ⟨hr, hn⟩ := h p (List.mem_cons_self _ _)
      have htail := fun p' hp' => h p' (List.mem_cons_of_mem _ hp')
      have hrec := ih (p :: hist) htail
      simp [srcFilesLoop, hc, hr, cstring_new_ok hn, hrec]

theorem dedupFirstAux_nodup (l : List String) :
    ∀ hist : List String,
      (dedupFirstAux hist l).Nodup ∧ ∀ x ∈ dedupFirstAux hist l, x ∉ hist := by
  induction l with
  | nil => intro hist; simp [dedupFirstAux]
  | cons p rest ih =>
    intro hist
    by_cases hc : p ∈ hist
    · simpa [dedupFirstAux, hc] using ih hist
    · obtain ⟨hnd, hmem⟩ := ih (p :: hist)
      simp only [dedupFirstAux, hc, if_false, List.nodup_cons]
      refine ⟨⟨fun hp => ?_, hnd⟩, ?_⟩
      · exact (hmem p hp) (List.mem_cons_self _ _)
      · intro x hx
        rcases List.mem_cons.1 hx with rfl | hx'
        · exact hc
        · exact fun hxh => (hmem x hx') (List.mem_cons_of_mem _ hxh)

theorem dedupFirst_nodup (l : List String) : (dedupFirst l).Nodup :=
  (dedupFirstAux_nodup l []).1

/-- C1: when every source-category directive is NUL-free and every
deduplicated source file reads successfully with NUL-free contents,
`get_src_strings` returns, in order: one leading `"\n"` separator, every
`IncludeDefine`/`IncludeCore` directive rendered in original insertion
order, the contents of the source files in reverse addition order with
each distinct path emitted exactly once (first-occurrence deduplication
over the reversed list, which is `Nodup`), a `"\n"` separator, and every
`IncludeRawEof` directive in original insertion order; moreover the
paths read from disk are exactly that deduplicated list, so a path added
twice is read at most once. -/
theorem C1_src_strings_shape (env : FileEnv) (b : ProgramBuilder)
    (hinc : ∀ o ∈ b.options, ∀ s, renderSrcInclude o = some s → NulFree s)
    (happ : ∀ o ∈ b.options, ∀ s, renderSrcAppend o = some s → NulFree s)
    (hfiles : ∀ p ∈ dedupFirst b.src_files.reverse,
      env.readFile p = .ok (fileContent env p) ∧ NulFree (fileContent env p)) :
    b.get_src_strings env =
      .ok (("\n" :: b.options.filterMap renderSrcInclude) ++
           (dedupFirst b.src_files.reverse).map (fileContent env) ++
           ("\n" :: b.options.filterMap renderSrcAppend)) ∧
    b.src_reads env = dedupFirst b.src_files.reverse ∧
    (dedupFirst b.src_files.reverse).Nodup := by
  have hloop := srcFilesLoop_eq env b.src_files.reverse [] hfiles
  refine ⟨?_, ?_, dedupFirst_nodup _⟩
  · unfold ProgramBuilder.get_src_strings
    unfold ProgramBuilder.get_kernel_includes
    unfold ProgramBuilder.get_kernel_includes_eof
    rw [kernelIncludesLoop_eq b.options hinc, kernelIncludesEofLoop_eq b.options happ]
    rw [show srcFilesLoop env b.src_files.reverse [] =
        (.ok ((dedupFirst b.src_files.reverse).map (fileContent env)),
         dedupFirst b.src_files.reverse) from hloop]
    rfl
  · unfold ProgramBuilder.src_reads
    rw [show srcFilesLoop env b.src_files.reverse [] =
        (.ok ((dedupFirst b.src_files.reverse).map (fileContent env)),
         dedupFirst b.src_files.reverse) from hloop]

/-- Witness for C1: for files `[a.cl, b.cl, c.cl]` the assembled sources
are the separator, the two rendered includes, then `CC` before `BB`
before `AA` (reverse addition order), the separator, and the append;
and with `a.cl` added twice the paths read are `[a.cl, c.cl, b.cl]` —
no path read twice. -/
theorem C1_src_strings_shape_witness :
    builderC1.get_src_strings fenvW =
      .ok ["\n", "#define N  3\n", "core", "CC", "BB", "AA", "\n", "tail"] ∧
    builderC1dup.get_src_strings fenvW =
      .ok ["\n", "#define N  3\n", "core", "AA", "CC", "BB", "\n", "tail"] ∧
    builderC1dup.src_reads fenvW = ["a.cl", "c.cl", "b.cl"] ∧
    (builderC1dup.src_reads fenvW).Nodup := by
  have hinc1 := all_srcIncludeOk (l := builderC1.options) (by decide)
  have happ1 := all_srcAppendOk (l := builderC1.options) (by decide)
  have hincD := all_srcIncludeOk (l := builderC1dup.options) (by decide)
  have happD := all_srcAppendOk (l := builderC1dup.options) (by decide)
  have h := C1_src_strings_shape fenvW builderC1 hinc1 happ1
    (all_fileOkB (by decide))
  have hd := C1_src_strings_shape fenvW builderC1dup hincD happD
    (all_fileOkB (by decide))
  obtain ⟨h1, _, _⟩ := h
  obtain ⟨hd1, hd2, _⟩ := hd
  refine ⟨?_, ?_, ?_, ?_⟩
  · rw [h1]; exact congrArg Except.ok (by decide)
  · rw [hd1]; exact congrArg Except.ok (by decide)
  · rw [hd2]; decide
  · rw [hd2]; decide

theorem toRawLoop_eq (l : List (ContextProperty × ContextPropertyValue))
    (h : ∀ e ∈ l, toRawSupported e.2 = true) :
    toRawLoop l = .ok (l.flatMap entryWords) := by
  induction l with
  | nil => rfl
  | cons e rest ih =>
    have he := h e (List.mem_cons_self _ _)
    have hrest := ih (fun e' he' => h e' (List.mem_cons_of_mem _ he'))
    cases hv : e.2 <;> rw [hv] at he <;> simp [toRawSupported] at he <;>
      simp [toRawLoop, toRawEntry, hv, hrest, entryWords]

theorem flatMap_entryWords_length (l : List (ContextProperty × ContextPropertyValue))
    (h : ∀ e ∈ l, toRawSupported e.2 = true) :
    (l.flatMap entryWords).length = 2 * l.length := by
  induction l with
  | nil => rfl
  | cons e rest ih =>
    have he := h e (List.mem_cons_self _ _)
    have hrest := ih (fun e' he' => h e' (List.mem_cons_of_mem _ he'))
    have hlen : (entryWords e).length = 2 := by
      cases hv : e.2 <;> rw [hv] at he <;> simp [toRawSupported] at he <;>
        simp [entryWords, hv]
    simp [List.flatMap_cons, hlen, hrest]
    ring

/-- C4 counterexample: `gl_context` is one of the supported setters, but
`to_raw` has no match arm for a stored `GlContextKhr` value, so
`ContextProperties::new().gl_context(5).to_raw()` panics instead of
returning the one-pair-plus-zero word sequence (length `2·1+1 = 3`) the
claim asserts. -/
theorem C4_counterexample :
    (ContextProperties.new.gl_context 5).to_raw =
      .fatal "'GlContextKhr' is not yet a supported variant." :=
  rfl

/-- C4 (amended): for every `ContextProperties` list whose stored values
are all in the variant subset `to_raw` handles — `Platform`,
`InteropUserSync`, `CglSharegroupKhr` (a stored `GlContextKhr` entry
panics instead) — `to_raw` returns one (kind word, value word) pair per
stored entry followed by a single trailing zero word, hence a list of
length `2n+1` for `n` entries. -/
theorem C4_to_raw_pairs (cp : ContextProperties)
    (h : ∀ e ∈ cp.entries, toRawSupported e.2 = true) :
    cp.to_raw = .ok (cp.entries.flatMap entryWords ++ [0]) ∧
    (cp.entries.flatMap entryWords ++ [0]).length = 2 * cp.entries.length + 1 := by
  constructor
  · unfold ContextProperties.to_raw
    rw [toRawLoop_eq cp.entries h]
  · simp [flatMap_entryWords_length cp.entries h]

/-- Witness for C4 (amended), instantiating the claim's round-trip
example: `new().platform(P).interop_user_sync(true)` serializes to the
Platform pair, the InteropUserSync pair, and the trailing zero — five
words for two entries. -/
theorem C4_to_raw_pairs_witness :
    ((ContextProperties.new.platform 7).interop_user_sync true).to_raw =
      .ok [0x1084, 7, 0x1085, 1, 0] ∧
    ([0x1084, 7, 0x1085, 1, 0] : List Int).length = 2 * 2 + 1 := by
  have h := C4_to_raw_pairs
    ((ContextProperties.new.platform 7).interop_user_sync true) (by decide)
  exact ⟨h.1.trans (congrArg RustOutcome.ok (by decide)), by decide⟩

theorem mapGet_mapInsert_self (m : List (ContextProperty × ContextPropertyValue))
    (k : ContextProperty) (v : ContextPropertyValue) :
    mapGet (mapInsert m k v) k = some v := by
  induction m with
  | nil => simp [mapInsert, mapGet]
  | cons e rest ih =>
    by_cases h : e.1 = k <;> simp [mapInsert, mapGet, h, ih]

theorem mapGet_mapInsert_ne (m : List (ContextProperty × ContextPropertyValue))
    (k k' : ContextProperty) (v : ContextPropertyValue) (h : k' ≠ k) :
    mapGet (mapInsert m k v) k' = mapGet m k' := by
  have h' : k ≠ k' := Ne.symm h
  induction m with
  | nil => simp [mapInsert, mapGet, h']
  | cons e rest ih =>
    by_cases he : e.1 = k
    · have he' : e.1 ≠ k' := by rw [he]; exact h'
      simp [mapInsert, mapGet, he, he', h', ih]
    · by_cases he' : e.1 = k' <;> simp [mapInsert, mapGet, he, he', h, h', ih]

theorem mem_mapInsert (m : List (ContextProperty × ContextPropertyValue))
    (k : ContextProperty) (v : ContextPropertyValue) :
    ∀ e ∈ mapInsert m k v, e ∈ m ∨ e = (k, v) := by
  induction m with
  | nil => intro e he; simp [mapInsert] at he; right; exact he
  | cons e0 rest ih =>
    intro e he
    by_cases h : e0.1 = k
    · rw [show mapInsert (e0 :: rest) k v = mapInsert rest k v by
        simp [mapInsert, h]] at he
      rcases ih e he with h1 | h2
      · exact Or.inl (List.mem_cons_of_mem _ h1)
      · exact Or.inr h2
    · rw [show mapInsert (e0 :: rest) k v = e0 :: mapInsert rest k v by
        simp [mapInsert, h]] at he
      rcases List.mem_cons.1 he with rfl | he'
      · exact Or.inl (List.mem_cons_self _ _)
      · rcases ih e he' with h1 | h2
        · exact Or.inl (List.mem_cons_of_mem _ h1)
        · exact Or.inr h2

theorem mapGet_mem (m : List (ContextProperty × ContextPropertyValue))
    (k : ContextProperty) (v : ContextPropertyValue) (h : mapGet m k = some v) :
    (k, v) ∈ m := by
  induction m with
  | nil => simp [mapGet] at h
  | cons e rest ih =>
    unfold mapGet at h
    by_cases he : e.1 = k
    · simp [he] at h
      have : e = (k, v) := by
        cases e with
        | mk e1 e2 => simp at he h; rw [he, h]
      rw [← this]
      exact List.mem_cons_self _ _
    · simp [he] at h
      exact List.mem_cons_of_mem _ (ih h)

theorem wf_mapInsert (cp : ContextProperties) (k : ContextProperty)
    (v : ContextPropertyValue) (hwf : WF cp)
    (hkv : entryWellFormed (k, v) = true) :
    WF { entries := mapInsert cp.entries k v } := by
  intro e he
  rcases mem_mapInsert cp.entries k v e he with h1 | h2
  · exact hwf e h1
  · rw [h2]; exact hkv

theorem platLookup_insert_plat (cp : ContextProperties) (p : Int) :
    platLookup { entries := mapInsert cp.entries .Platform (.Platform p) } =
      some p := by
  simp [platLookup, mapGet_mapInsert_self]

theorem platLookup_insert_other (cp : ContextProperties) (k : ContextProperty)
    (v : ContextPropertyValue) (hk : k ≠ .Platform) :
    platLookup { entries := mapInsert cp.entries k v } = platLookup cp := by
  unfold platLookup
  rw [mapGet_mapInsert_ne cp.entries k .Platform v (Ne.symm hk)]

theorem cglLookup_insert_cgl (cp : ContextProperties) (c : Int) :
    cglLookup (ContextProperties.mk
      (mapInsert cp.entries .CglSharegroupKhr (.CglSharegroupKhr c))) = some c := by
  simp [cglLookup, mapGet_mapInsert_self]

theorem cglLookup_insert_other (cp : ContextProperties) (k : ContextProperty)
    (v : ContextPropertyValue) (hk : k ≠ .CglSharegroupKhr) :
    cglLookup { entries := mapInsert cp.entries k v } = cglLookup cp := by
  unfold cglLookup
  rw [mapGet_mapInsert_ne cp.entries k .CglSharegroupKhr v (Ne.symm hk)]

theorem applyCtxOp_ok (cp cp' : ContextProperties) (op : CtxOp) (hwf : WF cp)
    (h : applyCtxOp cp op = .ok cp') :
    WF cp' ∧ platLookup cp' = platStep (platLookup cp) op ∧
      cglLookup cp' = cglStep (cglLookup cp) op := by
  cases op with
  | set_platform p =>
    have hcp : cp' = { entries := mapInsert cp.entries .Platform (.Platform p) } := by
      simpa [applyCtxOp, ContextProperties.set_platform] using h.symm
    subst hcp
    exact ⟨wf_mapInsert cp _ _ hwf rfl,
      by rw [platLookup_insert_plat]; rfl,
      by rw [cglLookup_insert_other cp _ _ (by decide)]; rfl⟩
  | set_interop_user_sync b =>
    have hcp : cp' = ContextProperties.mk
        (mapInsert cp.entries .InteropUserSync (.InteropUserSync b)) := by
      simpa [applyCtxOp, ContextProperties.set_interop_user_sync] using h.symm
    subst hcp
    exact ⟨wf_mapInsert cp _ _ hwf rfl,
      by rw [platLookup_insert_other cp _ _ (by decide)]; rfl,
      by rw [cglLookup_insert_other cp _ _ (by decide)]; rfl⟩
  | set_gl_context v =>
    have hcp : cp' = ContextProperties.mk
        (mapInsert cp.entries .GlContextKhr (.GlContextKhr v)) := by
      simpa [applyCtxOp, ContextProperties.set_gl_context] using h.symm
    subst hcp
    exact ⟨wf_mapInsert cp _ _ hwf rfl,
      by rw [platLookup_insert_other cp _ _ (by decide)]; rfl,
      by rw [cglLookup_insert_other cp _ _ (by decide)]; rfl⟩
  | set_cgl_sharegroup v =>
    have hcp : cp' = ContextProperties.mk
        (mapInsert cp.entries .CglSharegroupKhr (.CglSharegroupKhr v)) := by
      simpa [applyCtxOp, ContextProperties.set_cgl_sharegroup] using h.symm
    subst hcp
    exact ⟨wf_mapInsert cp _ _ hwf rfl,
      by rw [platLookup_insert_other cp _ _ (by decide)]; rfl,
      by rw [cglLookup_insert_cgl]; rfl⟩
  | set_property_value v =>
    cases v with
    | Platform p =>
      have hcp : cp' = ContextProperties.mk
          (mapInsert cp.entries .Platform (.Platform p)) := by
        simpa [applyCtxOp, ContextProperties.set_property_value] using h.symm
      subst hcp
      exact ⟨wf_mapInsert cp _ _ hwf rfl,
        by rw [platLookup_insert_plat]; rfl,
        by rw [cglLookup_insert_other cp _ _ (by decide)]; rfl⟩
    | InteropUserSync b =>
      have hcp : cp' = ContextProperties.mk
          (mapInsert cp.entries .InteropUserSync (.InteropUserSync b)) := by
        simpa [applyCtxOp, ContextProperties.set_property_value] using h.symm
      subst hcp
      exact ⟨wf_mapInsert cp _ _ hwf rfl,
        by rw [platLookup_insert_other cp _ _ (by decide)]; rfl,
        by rw [cglLookup_insert_other cp _ _ (by decide)]; rfl⟩
    | GlContextKhr g =>
      have hcp : cp' = ContextProperties.mk
          (mapInsert cp.entries .GlContextKhr (.GlContextKhr g)) := by
        simpa [applyCtxOp, ContextProperties.set_property_value] using h.symm
      subst hcp
      exact ⟨wf_mapInsert cp _ _ hwf rfl,
        by rw [platLookup_insert_other cp _ _ (by decide)]; rfl,
        by rw [cglLookup_insert_other cp _ _ (by decide)]; rfl⟩
    | CglSharegroupKhr c =>
      have hcp : cp' = ContextProperties.mk
          (mapInsert cp.entries .CglSharegroupKhr (.CglSharegroupKhr c)) := by
        simpa [applyCtxOp, ContextProperties.set_property_value] using h.symm
      subst hcp
      exact ⟨wf_mapInsert cp _ _ hwf rfl,
        by rw [platLookup_insert_other cp _ _ (by decide)]; rfl,
        by rw [cglLookup_insert_cgl]; rfl⟩
    | D3d10DeviceKhr d =>
      simp [applyCtxOp, ContextProperties.set_property_value] at h
    | EglDisplayKhr d =>
      simp [applyCtxOp, ContextProperties.set_property_value] at h
    | GlxDisplayKhr d =>
      simp [applyCtxOp, ContextProperties.set_property_value] at h
    | WglHdcKhr d =>
      simp [applyCtxOp, ContextProperties.set_property_value] at h
    | AdapterD3d9Khr =>
      simp [applyCtxOp, ContextProperties.set_property_value] at h
    | AdapterD3d9exKhr =>
      simp [applyCtxOp, ContextProperties.set_property_value] at h
    | AdapterDxvaKhr =>
      simp [applyCtxOp, ContextProperties.set_property_value] at h
    | D3d11DeviceKhr =>
      simp [applyCtxOp, ContextProperties.set_property_value] at h

theorem applyCtxOps_ok (ops : List CtxOp) :
    ∀ cp cp', WF cp → applyCtxOps cp ops = .ok cp' →
      WF cp' ∧ platLookup cp' = ops.foldl platStep (platLookup cp) ∧
        cglLookup cp' = ops.foldl cglStep (cglLookup cp) := by
  induction ops with
  | nil =>
    intro cp cp' hwf h
    unfold applyCtxOps at h
    cases h
    exact ⟨hwf, rfl, rfl⟩
  | cons op rest ih =>
    intro cp cp' hwf h
    unfold applyCtxOps at h
    cases hop : applyCtxOp cp op with
    | fatal m => rw [hop] at h; cases h
    | ok cp1 =>
      rw [hop] at h
      obtain ⟨hwf1, hp1, hc1⟩ := applyCtxOp_ok cp cp1 op hwf hop
      obtain ⟨hwf2, hp2, hc2⟩ := ih cp1 cp' hwf1 h
      exact ⟨hwf2, by rw [hp2, hp1, List.foldl_cons],
        by rw [hc2, hc1, List.foldl_cons]⟩

theorem get_platform_wf (cp : ContextProperties) (hwf : WF cp) :
    cp.get_platform = .ok (platLookup cp) := by
  unfold ContextProperties.get_platform platLookup
  cases hg : mapGet cp.entries .Platform with
  | none => rfl
  | some v =>
    have hmem := mapGet_mem cp.entries .Platform v hg
    have := hwf _ hmem
    cases v <;> first | rfl | simp [entryWellFormed] at this

theorem get_cgl_sharegroup_wf (cp : ContextProperties) (hwf : WF cp) :
    cp.get_cgl_sharegroup = .ok (cglLookup cp) := by
  unfold ContextProperties.get_cgl_sharegroup cglLookup
  cases hg : mapGet cp.entries .CglSharegroupKhr with
  | none => rfl
  | some v =>
    have hmem := mapGet_mem cp.entries .CglSharegroupKhr v hg
    have := hwf _ hmem
    cases v <;> first | rfl | simp [entryWellFormed] at this

/-- C10: for every `ContextProperties` value reachable from `new()`
through any sequence of the public setters and builder methods, the
value under each key has the matching variant, so `get_platform` and
`get_cgl_sharegroup` never reach their fatal wrong-variant branch: each
returns `none` when its key was never set and `some` of the most
recently set value otherwise. -/
theorem C10_typed_getters (ops : List CtxOp) (cp : ContextProperties)
    (h : applyCtxOps ContextProperties.new ops = .ok cp) :
    cp.get_platform = .ok (lastPlatform ops) ∧
    cp.get_cgl_sharegroup = .ok (lastCgl ops) := by
  have hwf0 : WF ContextProperties.new := by
    intro e he
    simp [ContextProperties.new] at he
  obtain ⟨hwf, hp, hc⟩ := applyCtxOps_ok ops ContextProperties.new cp hwf0 h
  constructor
  · rw [get_platform_wf cp hwf, hp]; rfl
  · rw [get_cgl_sharegroup_wf cp hwf, hc]; rfl

/-- Witness for C10: after `opsW` the getters return the most recently
set platform (5) and sharegroup (4) without panicking. -/
theorem C10_typed_getters_witness :
    applyCtxOps ContextProperties.new opsW = .ok cpW10 ∧
    cpW10.get_platform = .ok (some 5) ∧
    cpW10.get_cgl_sharegroup = .ok (some 4) := by
  have h := C10_typed_getters opsW cpW10 (by decide)
  exact ⟨by decide, h.1.trans (congrArg RustOutcome.ok (by decide)),
    h.2.trans (congrArg RustOutcome.ok (by decide))⟩

end Ocl
